import Mathlib

/-
Verification of the joynr client-side proxy construction and binding pipeline.

The definitions below are a shallow embedding of the C++ sources:
  src/cpp/common/SubscriptionUtil.cpp
  src/cpp/libjoynr/capabilities/LocalDiscoveryAggregator.cpp
  src/cpp/libjoynr/include/joynr/ProxyBuilder.h
  src/cpp/libjoynr/include/joynr/MulticastReceiverDirectory.h
Pure functions become Lean functions; in-out parameters (RequestStatus,
result vectors) become explicit state threading; calls into consumed
interfaces (the remote discovery proxy, the message router, the caller's
callbacks) become either oracle functions passed in or events recorded in
an output trace, one trace element exactly where the source performs the
corresponding call.
-/

namespace Joynr

/-
SubscriptionUtil (src/cpp/common/SubscriptionUtil.cpp, Variant overloads).

The C++ `Variant` holds a dynamically typed value; the subscription QoS
values stored in it are one of the three known QoS types, or anything
else.  We model the dynamic type of the held value as a closed inductive
with an extra constructor for a value of any other type, carrying the
fields each known QoS type exposes through its getters.
-/

/-- Dynamic content of a Variant holding a subscription QoS: one of the
three known QoS types, or a value of any other type (`unknown`). -/
inductive SubscriptionQosVariant where
  | onChange (minInterval : Int)
  | onChangeWithKeepAlive (minInterval maxInterval alertAfterInterval : Int)
  | periodic (period alertAfterInterval : Int)
  | unknown
  deriving DecidableEq

namespace SubscriptionUtil

/-- SubscriptionUtil::isOnChangeSubscription(const Variant&):
it tests OnChangeWithKeepAliveSubscriptionQos or OnChangeSubscriptionQos. -/
def isOnChangeSubscription : SubscriptionQosVariant → Bool
  | .onChangeWithKeepAlive _ _ _ => true
  | .onChange _ => true
  | _ => false

/-- SubscriptionUtil::getAlertInterval(const Variant&): checks
OnChangeWithKeepAlive first, then Periodic, and returns -1 otherwise. -/
def getAlertInterval : SubscriptionQosVariant → Int
  | .onChangeWithKeepAlive _ _ alertAfterInterval => alertAfterInterval
  | .periodic _ alertAfterInterval => alertAfterInterval
  | _ => -1

/-- SubscriptionUtil::getMinInterval(const Variant&): checks
OnChangeWithKeepAlive first, then OnChange, and returns -1 otherwise. -/
def getMinInterval : SubscriptionQosVariant → Int
  | .onChangeWithKeepAlive minInterval _ _ => minInterval
  | .onChange minInterval => minInterval
  | _ => -1

/-- SubscriptionUtil::getPeriodicPublicationInterval(const Variant&): checks
OnChangeWithKeepAlive first (returning maxInterval), then Periodic
(returning period), and returns -1 otherwise. -/
def getPeriodicPublicationInterval : SubscriptionQosVariant → Int
  | .onChangeWithKeepAlive _ maxInterval _ => maxInterval
  | .periodic period _ => period
  | _ => -1

/-- SubscriptionUtil::getVariant(const SubscriptionQos&): dynamic casts to
the three known QoS types in order; for any other dynamic type it throws
JoynrRuntimeException, modelled as `Except.error` carrying the message. -/
def getVariant : SubscriptionQosVariant → Except String SubscriptionQosVariant
  | .onChangeWithKeepAlive a b c => .ok (.onChangeWithKeepAlive a b c)
  | .onChange m => .ok (.onChange m)
  | .periodic p a => .ok (.periodic p a)
  | .unknown =>
      .error "Exception in SubscriptionUtil: reference to unknown SubscriptionQos has been sent"

end SubscriptionUtil

/-
LocalDiscoveryAggregator
(src/cpp/libjoynr/capabilities/LocalDiscoveryAggregator.cpp).

The aggregator's methods take a RequestStatus and, for the lookups, a
result out-parameter by reference; the embedding threads these explicitly
and returns the values they hold on exit.  The remote discovery proxy
(joynr::system::IDiscoverySync) is a consumed interface and is modelled as
a record of oracle functions; each aggregator operation also returns the
list of calls it performed on the remote proxy, one list element exactly
where the source calls through `discoveryProxy->`.  The Qt DiscoveryEntry
and StdDiscoveryEntry types are value-identical for the fields the
aggregator touches, so one Lean type stands for both and the
DiscoveryEntry::createStd conversion is the identity.
-/

/-- joynr::types::(Std)CommunicationMiddleware transport tags; the
modelled code uses IN_PROCESS and JOYNR. -/
inductive CommunicationMiddleware where
  | JOYNR
  | COMMONAPI_DBUS
  | WEBSOCKET
  | SOME_IP
  | IN_PROCESS
  deriving DecidableEq

/-- joynr::RequestStatusCode; the modelled code uses OK and ERROR
(NOT_STARTED stands for the remaining codes of the external header). -/
inductive RequestStatusCode where
  | OK
  | ERROR
  | NOT_STARTED
  deriving DecidableEq

/-- joynr::RequestStatus: a code and a list of descriptions. -/
structure RequestStatus where
  code : RequestStatusCode
  descriptions : List String
  deriving DecidableEq

/-- RequestStatus::setCode. -/
def RequestStatus.setCode (s : RequestStatus) (c : RequestStatusCode) : RequestStatus :=
  { s with code := c }

/-- RequestStatus::addDescription appends one description. -/
def RequestStatus.addDescription (s : RequestStatus) (d : String) : RequestStatus :=
  { s with descriptions := s.descriptions ++ [d] }

/-- joynr::types::StdDiscoveryQos discovery scope. -/
inductive DiscoveryScope where
  | LOCAL_ONLY
  | LOCAL_THEN_GLOBAL
  | LOCAL_AND_GLOBAL
  | GLOBAL_ONLY
  deriving DecidableEq

/-- joynr::types::StdDiscoveryQos as passed through the aggregator's
domain/interface lookup (the aggregator never inspects it). -/
structure StdDiscoveryQos where
  cacheMaxAge : Int
  discoveryScope : DiscoveryScope
  providerMustSupportOnChange : Bool
  deriving DecidableEq

/-- joynr::types::ProviderQos; the aggregator never inspects it. -/
structure ProviderQos where
  priority : Int
  deriving DecidableEq

/-- joynr::types::StdDiscoveryEntry with the fields the modelled code
reads or writes (getParticipantId, getConnections, setConnections) plus
the identity fields. -/
structure StdDiscoveryEntry where
  domain : String
  interfaceName : String
  participantId : String
  qos : ProviderQos
  connections : List CommunicationMiddleware
  deriving DecidableEq

/-- One call performed on the remote discovery proxy. -/
inductive RemoteCall where
  | add (entry : StdDiscoveryEntry)
  | lookupByDomain (domain interfaceName : String) (qos : StdDiscoveryQos)
  | lookupByParticipantId (participantId : String)
  | remove (participantId : String)
  deriving DecidableEq

/-- The remote discovery proxy (joynr::system::IDiscoverySync), a consumed
interface: each method receives the current RequestStatus (and, for the
lookups, the current result out-parameter) and returns their values on
exit. -/
structure IDiscoverySync where
  add : RequestStatus → StdDiscoveryEntry → RequestStatus
  lookupByDomain : RequestStatus → List StdDiscoveryEntry → String → String → StdDiscoveryQos →
    RequestStatus × List StdDiscoveryEntry
  lookupByParticipantId : RequestStatus → StdDiscoveryEntry → String →
    RequestStatus × StdDiscoveryEntry
  remove : RequestStatus → String → RequestStatus

/-- joynr::LocalDiscoveryAggregator state.  `requestCallerDirectory` is
the IRequestCallerDirectory reference, represented by its only observed
operation containsRequestCaller; the provisioned entries QMap is an
association list keyed by participant id. -/
structure LocalDiscoveryAggregator where
  discoveryProxy : Option IDiscoverySync
  hasOwnershipOfDiscoveryProxy : Bool
  requestCallerDirectory : String → Bool
  provisionedDiscoveryEntries : List (String × StdDiscoveryEntry)

/-- LocalDiscoveryAggregator constructor: discoveryProxy starts NULL
without ownership, and the provisioned map is seeded with the routing
provider entry and the discovery provider entry, each keyed by its own
participant id.  The two entries are passed in already built because
their domain, interface names and participant ids come from settings and
generated constants outside the modelled sources. -/
def LocalDiscoveryAggregator.construct (requestCallerDirectory : String → Bool)
    (routingProviderDiscoveryEntry discoveryProviderDiscoveryEntry : StdDiscoveryEntry) :
    LocalDiscoveryAggregator where
  discoveryProxy := none
  hasOwnershipOfDiscoveryProxy := false
  requestCallerDirectory := requestCallerDirectory
  provisionedDiscoveryEntries :=
    [(routingProviderDiscoveryEntry.participantId, routingProviderDiscoveryEntry),
     (discoveryProviderDiscoveryEntry.participantId, discoveryProviderDiscoveryEntry)]

/-- LocalDiscoveryAggregator::setDiscoveryProxy installs the remote proxy
and takes ownership. -/
def LocalDiscoveryAggregator.setDiscoveryProxy (agg : LocalDiscoveryAggregator)
    (proxy : IDiscoverySync) : LocalDiscoveryAggregator :=
  { agg with discoveryProxy := some proxy, hasOwnershipOfDiscoveryProxy := true }

/-- The description the aggregator adds when no remote proxy is installed,
exactly as the source spells it (including the spelling of the last two
words). -/
def discoveryProxyNotSetDescription : String :=
  "LocalDiscoveryAggregator: discoveryProxy not set. Couldn't reach local capabilitites directory."

/-- LocalDiscoveryAggregator::checkForLocalAvailabilityAndAddInProcessConnection:
if the request-caller directory contains the entry's participant id,
IN_PROCESS is inserted at the front of its connections. -/
def LocalDiscoveryAggregator.checkForLocalAvailabilityAndAddInProcessConnection
    (agg : LocalDiscoveryAggregator) (discoveryEntry : StdDiscoveryEntry) : StdDiscoveryEntry :=
  if agg.requestCallerDirectory discoveryEntry.participantId then
    { discoveryEntry with
        connections := CommunicationMiddleware.IN_PROCESS :: discoveryEntry.connections }
  else
    discoveryEntry

/-- What an aggregator operation without a result out-parameter leaves
behind: the aggregator state, the RequestStatus, and the remote calls. -/
structure StatusOutcome where
  aggregatorAfter : LocalDiscoveryAggregator
  joynrInternalStatus : RequestStatus
  remoteCalls : List RemoteCall

/-- Outcome of the lookup by domain and interface. -/
structure LookupDomainOutcome where
  aggregatorAfter : LocalDiscoveryAggregator
  joynrInternalStatus : RequestStatus
  result : List StdDiscoveryEntry
  remoteCalls : List RemoteCall

/-- Outcome of the lookup by participant id. -/
structure LookupParticipantOutcome where
  aggregatorAfter : LocalDiscoveryAggregator
  joynrInternalStatus : RequestStatus
  result : StdDiscoveryEntry
  remoteCalls : List RemoteCall

/-- LocalDiscoveryAggregator::add: with no proxy, set ERROR and add the
description; otherwise forward verbatim. -/
def LocalDiscoveryAggregator.add (agg : LocalDiscoveryAggregator)
    (joynrInternalStatus : RequestStatus) (discoveryEntry : StdDiscoveryEntry) : StatusOutcome :=
  match agg.discoveryProxy with
  | none =>
      { aggregatorAfter := agg
        joynrInternalStatus :=
          (joynrInternalStatus.setCode RequestStatusCode.ERROR).addDescription
            discoveryProxyNotSetDescription
        remoteCalls := [] }
  | some proxy =>
      { aggregatorAfter := agg
        joynrInternalStatus := proxy.add joynrInternalStatus discoveryEntry
        remoteCalls := [RemoteCall.add discoveryEntry] }

/-- LocalDiscoveryAggregator::lookup(domain, interfaceName, qos): with no
proxy, set ERROR and add the description, leaving the result untouched;
otherwise forward, then add the in-process connection to every result
entry whose participant id is in the request-caller directory. -/
def LocalDiscoveryAggregator.lookupByDomainAndInterface (agg : LocalDiscoveryAggregator)
    (joynrInternalStatus : RequestStatus) (result : List StdDiscoveryEntry)
    (domain interfaceName : String) (discoveryQos : StdDiscoveryQos) : LookupDomainOutcome :=
  match agg.discoveryProxy with
  | none =>
      { aggregatorAfter := agg
        joynrInternalStatus :=
          (joynrInternalStatus.setCode RequestStatusCode.ERROR).addDescription
            discoveryProxyNotSetDescription
        result := result
        remoteCalls := [] }
  | some proxy =>
      let forwarded := proxy.lookupByDomain joynrInternalStatus result domain interfaceName
        discoveryQos
      { aggregatorAfter := agg
        joynrInternalStatus := forwarded.1
        result := forwarded.2.map agg.checkForLocalAvailabilityAndAddInProcessConnection
        remoteCalls := [RemoteCall.lookupByDomain domain interfaceName discoveryQos] }

/-- LocalDiscoveryAggregator::lookup(participantId): a provisioned id is
answered locally with status OK; otherwise the call is forwarded when a
proxy is installed, and fails with ERROR and the description when not
(returning before the in-process annotation step).  In the two answering
paths the in-process connection is added when applicable. -/
def LocalDiscoveryAggregator.lookupByParticipantId (agg : LocalDiscoveryAggregator)
    (joynrInternalStatus : RequestStatus) (result : StdDiscoveryEntry)
    (participantId : String) : LookupParticipantOutcome :=
  match agg.provisionedDiscoveryEntries.lookup participantId with
  | some provisionedEntry =>
      { aggregatorAfter := agg
        joynrInternalStatus := joynrInternalStatus.setCode RequestStatusCode.OK
        result := agg.checkForLocalAvailabilityAndAddInProcessConnection provisionedEntry
        remoteCalls := [] }
  | none =>
      match agg.discoveryProxy with
      | none =>
          { aggregatorAfter := agg
            joynrInternalStatus :=
              (joynrInternalStatus.setCode RequestStatusCode.ERROR).addDescription
                discoveryProxyNotSetDescription
            result := result
            remoteCalls := [] }
      | some proxy =>
          let forwarded := proxy.lookupByParticipantId joynrInternalStatus result participantId
          { aggregatorAfter := agg
            joynrInternalStatus := forwarded.1
            result := agg.checkForLocalAvailabilityAndAddInProcessConnection forwarded.2
            remoteCalls := [RemoteCall.lookupByParticipantId participantId] }

/-- LocalDiscoveryAggregator::remove: with no proxy, set ERROR and add the
description; otherwise forward verbatim. -/
def LocalDiscoveryAggregator.remove (agg : LocalDiscoveryAggregator)
    (joynrInternalStatus : RequestStatus) (participantId : String) : StatusOutcome :=
  match agg.discoveryProxy with
  | none =>
      { aggregatorAfter := agg
        joynrInternalStatus :=
          (joynrInternalStatus.setCode RequestStatusCode.ERROR).addDescription
            discoveryProxyNotSetDescription
        remoteCalls := [] }
  | some proxy =>
      { aggregatorAfter := agg
        joynrInternalStatus := proxy.remove joynrInternalStatus participantId
        remoteCalls := [RemoteCall.remove participantId] }

/-
MulticastReceiverDirectory
(src/cpp/libjoynr/include/joynr/MulticastReceiverDirectory.h).

Modelled from the spec: only the header declaring the class is in the
sources; MulticastReceiverDirectory.cpp with the method bodies is not.
Following the spec's component design, the directory is a set-valued map
from multicast id to receiver ids: registering ensures membership and is
idempotent, unregistering removes membership and reports whether a change
occurred, dropping the key when its set becomes empty, and getReceivers
returns a snapshot, the empty set when the key is absent.  The
unordered_map is an association list and each unordered_set a
duplicate-free list; the reentrant mutex has no observable effect on the
sequential semantics and is omitted.
-/

/-- Modelled from the spec: the state of a MulticastReceiverDirectory,
a map from multicast id to the set of registered receiver ids. -/
structure MulticastReceiverDirectory where
  multicastReceivers : List (String × List String)

/-- Modelled from the spec: getReceivers returns a snapshot of the set
registered under the multicast id, empty when the key is absent. -/
def MulticastReceiverDirectory.getReceivers (dir : MulticastReceiverDirectory)
    (multicastId : String) : List String :=
  (dir.multicastReceivers.lookup multicastId).getD []

/-- Modelled from the spec: registerMulticastReceiver ensures membership
of the receiver id in the set under the multicast id (idempotent). -/
def MulticastReceiverDirectory.registerMulticastReceiver (dir : MulticastReceiverDirectory)
    (multicastId receiverId : String) : MulticastReceiverDirectory :=
  match dir.multicastReceivers.lookup multicastId with
  | some _ =>
      ⟨dir.multicastReceivers.map fun p =>
        if p.1 = multicastId then (p.1, if receiverId ∈ p.2 then p.2 else receiverId :: p.2)
        else p⟩
  | none => ⟨dir.multicastReceivers ++ [(multicastId, [receiverId])]⟩

/-- Modelled from the spec: unregisterMulticastReceiver removes the
receiver id from the set under the multicast id, returning whether a
change occurred, and drops the key when its set becomes empty. -/
def MulticastReceiverDirectory.unregisterMulticastReceiver (dir : MulticastReceiverDirectory)
    (multicastId receiverId : String) : MulticastReceiverDirectory × Bool :=
  match dir.multicastReceivers.lookup multicastId with
  | none => (dir, false)
  | some s =>
      if s.filter (fun x => x ≠ receiverId) = [] then
        (⟨dir.multicastReceivers.filter fun p => p.1 ≠ multicastId⟩, s.contains receiverId)
      else
        (⟨dir.multicastReceivers.map fun p =>
            if p.1 = multicastId then (p.1, s.filter fun x => x ≠ receiverId) else p⟩,
         s.contains receiverId)

/-- Modelled from the spec: contains(multicastId). -/
def MulticastReceiverDirectory.containsId (dir : MulticastReceiverDirectory)
    (multicastId : String) : Bool :=
  (dir.multicastReceivers.lookup multicastId).isSome

/-- Modelled from the spec: contains(multicastId, receiverId). -/
def MulticastReceiverDirectory.containsReceiver (dir : MulticastReceiverDirectory)
    (multicastId receiverId : String) : Bool :=
  (dir.getReceivers multicastId).contains receiverId

/-
ProxyBuilder (src/cpp/libjoynr/include/joynr/ProxyBuilder.h).

buildAsync interacts with consumed interfaces (the arbitrator factory,
the arbitrator, the caller's callbacks); the embedding records these
interactions as an event trace, one event exactly where the source
performs the call, together with the successor builder state.  The weak
runtime pointer upgrade is a boolean input (whether runtime.lock()
returned non-null).  Arbitrators are identified by the order of their
creation.  The `arbitrationSucceeds` lambda, which the arbitrator may
later invoke with the chosen discovery entry, is lambda-lifted to a
top-level function of the values it reads at callback time: whether the
builder's own weak pointer upgrade succeeds, whether the runtime upgrade
succeeds, the delivered entry, and the outcome the message router reports
for addNextHop.
-/

/-- ProxyBuilder<T>::runtimeAlreadyDestroyed, the static error message. -/
def ProxyBuilder.runtimeAlreadyDestroyed : String :=
  "required runtime has been already destroyed"

/-- The fields of joynr::types::DiscoveryEntryWithMetaInfo that buildAsync
reads: getParticipantId and getIsLocal. -/
structure DiscoveryEntryWithMetaInfo where
  participantId : String
  isLocal : Bool
  deriving DecidableEq

/-- Events observable during the synchronous part of buildAsync. -/
inductive BuildAsyncEvent where
  | callerOnError (message : String)
  | createArbitrator (arbitratorId : Nat)
  | startArbitration (arbitratorId : Nat)
  deriving DecidableEq

/-- The builder state buildAsync and stop read and write: the
shuttingDown flag and the arbitrator list (arbitrators as creation
ids). -/
structure ProxyBuilderState where
  shuttingDown : Bool
  arbitrators : List Nat
  nextArbitratorId : Nat
  deriving DecidableEq

/-- ProxyBuilder<T>::stop: sets shuttingDown, stops every registered
arbitrator and clears the list. -/
def ProxyBuilder.stop (b : ProxyBuilderState) : ProxyBuilderState :=
  { b with shuttingDown := true, arbitrators := [] }

/-- ProxyBuilder<T>::buildAsync, synchronous part: when the runtime weak
pointer cannot be upgraded or the builder is shutting down, onError is
invoked with runtimeAlreadyDestroyed; the body then continues in every
case, constructing an arbitrator, starting the arbitration and appending
the arbitrator to the list. -/
def ProxyBuilder.buildAsync (runtimeUpgraded : Bool) (b : ProxyBuilderState) :
    List BuildAsyncEvent × ProxyBuilderState :=
  let errorEvents :=
    if !runtimeUpgraded || b.shuttingDown then
      [BuildAsyncEvent.callerOnError ProxyBuilder.runtimeAlreadyDestroyed]
    else []
  let arbitratorId := b.nextArbitratorId
  (errorEvents ++
    [BuildAsyncEvent.createArbitrator arbitratorId,
     BuildAsyncEvent.startArbitration arbitratorId],
   { b with
      arbitrators := b.arbitrators ++ [arbitratorId],
      nextArbitratorId := arbitratorId + 1 })

/-- Events observable inside the arbitrationSucceeds callback. -/
inductive CallbackEvent where
  | onErrorDiscovery (message : String)
  | createProxy
  | handleArbitrationFinished (entry : DiscoveryEntryWithMetaInfo)
  | setToKnown (participantId : String)
  | addNextHop (isGloballyVisible : Bool) (expiryDateMs : Int) (isSticky : Bool)
  | onSuccessProxy
  deriving DecidableEq

/-- What the message router reports to the addNextHop callbacks. -/
inductive RouterOutcome where
  | success
  | failure (providerRuntimeErrorMessage : String)
  deriving DecidableEq

/-- The expiry date buildAsync passes to addNextHop:
std::numeric_limits<std::int64_t>::max(). -/
def ProxyBuilder.addNextHopExpiryDateMs : Int := 9223372036854775807

/-- The arbitrationSucceeds lambda of ProxyBuilder<T>::buildAsync: aborts
with runtimeAlreadyDestroyed when the builder or the runtime weak pointer
cannot be upgraded, fails on an empty participant id, and otherwise
creates the proxy, finishes arbitration on it, registers the route
(setToKnown, then addNextHop with isGloballyVisible = not isLocal,
maximal expiry date, not sticky) and finally reports to the caller
according to the router's outcome, with the router's message behind the
"Proxy could not be added to parent router: " text on failure. -/
def ProxyBuilder.arbitrationSucceeds (proxyBuilderUpgraded runtimeUpgraded : Bool)
    (discoverEntry : DiscoveryEntryWithMetaInfo) (routerOutcome : RouterOutcome) :
    List CallbackEvent :=
  if !proxyBuilderUpgraded then
    [CallbackEvent.onErrorDiscovery ProxyBuilder.runtimeAlreadyDestroyed]
  else if !runtimeUpgraded then
    [CallbackEvent.onErrorDiscovery ProxyBuilder.runtimeAlreadyDestroyed]
  else if discoverEntry.participantId = "" then
    [CallbackEvent.onErrorDiscovery
      "Arbitration was set to successfull by arbitrator but ParticipantId is empty"]
  else
    [CallbackEvent.createProxy,
     CallbackEvent.handleArbitrationFinished discoverEntry,
     CallbackEvent.setToKnown discoverEntry.participantId,
     CallbackEvent.addNextHop (!discoverEntry.isLocal) ProxyBuilder.addNextHopExpiryDateMs
       false] ++
    match routerOutcome with
    | RouterOutcome.success => [CallbackEvent.onSuccessProxy]
    | RouterOutcome.failure m =>
        [CallbackEvent.onErrorDiscovery ("Proxy could not be added to parent router: " ++ m)]

/-
Concrete sample values used to exhibit counterexamples and to instantiate
the universally quantified theorems.
-/

/-- A RequestStatus as handed in before a discovery call. -/
def initialRequestStatus : RequestStatus where
  code := RequestStatusCode.NOT_STARTED
  descriptions := []

/-- A discovery QoS value passed through the domain/interface lookup. -/
def sampleDiscoveryQos : StdDiscoveryQos where
  cacheMaxAge := 5000
  discoveryScope := DiscoveryScope.LOCAL_ONLY
  providerMustSupportOnChange := false

/-- The default-constructed entry a caller passes as the lookup result
out-parameter. -/
def defaultStdDiscoveryEntry : StdDiscoveryEntry where
  domain := ""
  interfaceName := ""
  participantId := ""
  qos := { priority := 0 }
  connections := []

/-- An entry the sample remote proxy serves. -/
def remoteEntryA : StdDiscoveryEntry where
  domain := "domainA"
  interfaceName := "interfaceA"
  participantId := "participantA"
  qos := { priority := 1 }
  connections := [CommunicationMiddleware.JOYNR]

/-- remoteEntryA after the in-process annotation. -/
def remoteEntryAWithInProcess : StdDiscoveryEntry where
  domain := "domainA"
  interfaceName := "interfaceA"
  participantId := "participantA"
  qos := { priority := 1 }
  connections := [CommunicationMiddleware.IN_PROCESS, CommunicationMiddleware.JOYNR]

/-- A sample remote discovery proxy: every call succeeds, the lookups
serve remoteEntryA. -/
def remoteProxyA : IDiscoverySync where
  add := fun st _ => st.setCode RequestStatusCode.OK
  lookupByDomain := fun st rs _ _ _ => (st.setCode RequestStatusCode.OK, rs ++ [remoteEntryA])
  lookupByParticipantId := fun st _ _ => (st.setCode RequestStatusCode.OK, remoteEntryA)
  remove := fun st _ => st.setCode RequestStatusCode.OK

/-- An aggregator with the sample proxy installed whose request-caller
directory contains exactly participantA. -/
def aggregatorWithProxyA : LocalDiscoveryAggregator where
  discoveryProxy := some remoteProxyA
  hasOwnershipOfDiscoveryProxy := true
  requestCallerDirectory := fun pid => pid == "participantA"
  provisionedDiscoveryEntries := []

/-- A provisioned entry whose participant also has a local request
caller. -/
def provisionedEntryB : StdDiscoveryEntry where
  domain := "systemDomainB"
  interfaceName := "system/DiscoveryB"
  participantId := "participantB"
  qos := { priority := 0 }
  connections := [CommunicationMiddleware.JOYNR]

/-- An aggregator provisioned with participantB, whose request-caller
directory contains participantB, and with no proxy installed. -/
def aggregatorProvisionedB : LocalDiscoveryAggregator where
  discoveryProxy := none
  hasOwnershipOfDiscoveryProxy := false
  requestCallerDirectory := fun pid => pid == "participantB"
  provisionedDiscoveryEntries := [("participantB", provisionedEntryB)]

/-- A provisioned entry whose participant has no local request caller. -/
def provisionedEntryC : StdDiscoveryEntry where
  domain := "systemDomainC"
  interfaceName := "system/RoutingC"
  participantId := "participantC"
  qos := { priority := 0 }
  connections := [CommunicationMiddleware.JOYNR]

/-- An aggregator provisioned with participantC, with the sample proxy
installed and an empty request-caller directory. -/
def aggregatorProvisionedC : LocalDiscoveryAggregator where
  discoveryProxy := some remoteProxyA
  hasOwnershipOfDiscoveryProxy := true
  requestCallerDirectory := fun _ => false
  provisionedDiscoveryEntries := [("participantC", provisionedEntryC)]

/-- An aggregator with no proxy installed and nothing provisioned. -/
def aggregatorWithoutProxy : LocalDiscoveryAggregator where
  discoveryProxy := none
  hasOwnershipOfDiscoveryProxy := false
  requestCallerDirectory := fun _ => false
  provisionedDiscoveryEntries := []

/-- The provisioned entry for the routing provider. -/
def routingProviderEntry : StdDiscoveryEntry where
  domain := "systemServicesDomain"
  interfaceName := "system/Routing"
  participantId := "ccRoutingParticipant"
  qos := { priority := 0 }
  connections := [CommunicationMiddleware.JOYNR]

/-- The provisioned entry for the discovery provider. -/
def discoveryProviderEntry : StdDiscoveryEntry where
  domain := "systemServicesDomain"
  interfaceName := "system/Discovery"
  participantId := "ccDiscoveryParticipant"
  qos := { priority := 0 }
  connections := [CommunicationMiddleware.JOYNR]

/-- A freshly constructed aggregator whose request-caller directory
contains the routing provider. -/
def freshAggregatorLocalCallers : LocalDiscoveryAggregator :=
  LocalDiscoveryAggregator.construct (fun pid => pid == "ccRoutingParticipant")
    routingProviderEntry discoveryProviderEntry

/-- A freshly constructed aggregator with an empty request-caller
directory. -/
def freshAggregatorNoLocalCallers : LocalDiscoveryAggregator :=
  LocalDiscoveryAggregator.construct (fun _ => false)
    routingProviderEntry discoveryProviderEntry

/-- A proxy builder as just constructed. -/
def initialProxyBuilderState : ProxyBuilderState where
  shuttingDown := false
  arbitrators := []
  nextArbitratorId := 0

/-- A discovery entry the arbitrator may deliver on success. -/
def sampleArbitratedEntry : DiscoveryEntryWithMetaInfo where
  participantId := "providerParticipant"
  isLocal := true

end Joynr

namespace Joynr

/-- Claim C3: for every SubscriptionQos value of one of the three known
variants the classifiers return exactly the table — OnChangeWithKeepAlive
gives (minInterval, maxInterval, alertAfterInterval), Periodic gives
(-1, period, alertAfterInterval), OnChange gives (minInterval, -1, -1) —
and isOnChangeSubscription holds exactly for the two on-change variants. -/
theorem subscriptionUtil_classifier_table (mi mx al pd : Int) :
    SubscriptionUtil.getMinInterval (.onChangeWithKeepAlive mi mx al) = mi ∧
    SubscriptionUtil.getPeriodicPublicationInterval (.onChangeWithKeepAlive mi mx al) = mx ∧
    SubscriptionUtil.getAlertInterval (.onChangeWithKeepAlive mi mx al) = al ∧
    SubscriptionUtil.getMinInterval (.periodic pd al) = -1 ∧
    SubscriptionUtil.getPeriodicPublicationInterval (.periodic pd al) = pd ∧
    SubscriptionUtil.getAlertInterval (.periodic pd al) = al ∧
    SubscriptionUtil.getMinInterval (.onChange mi) = mi ∧
    SubscriptionUtil.getPeriodicPublicationInterval (.onChange mi) = -1 ∧
    SubscriptionUtil.getAlertInterval (.onChange mi) = -1 ∧
    SubscriptionUtil.isOnChangeSubscription (.onChange mi) = true ∧
    SubscriptionUtil.isOnChangeSubscription (.onChangeWithKeepAlive mi mx al) = true ∧
    SubscriptionUtil.isOnChangeSubscription (.periodic pd al) = false ∧
    SubscriptionUtil.isOnChangeSubscription .unknown = false := by
  refine ⟨rfl, rfl, rfl, rfl, rfl, rfl, rfl, rfl, rfl, rfl, rfl, rfl, rfl⟩

/-- Claim C4, counterexample: at a Variant holding none of the three known
QoS types, the extraction classifiers do NOT raise — they return the
default -1 — contradicting the claim that each classifier operation raises
a runtime error and does not return a default value. -/
theorem subscriptionUtil_unknown_returns_default :
    SubscriptionUtil.getMinInterval .unknown = -1 ∧
    SubscriptionUtil.getAlertInterval .unknown = -1 ∧
    SubscriptionUtil.getPeriodicPublicationInterval .unknown = -1 := by
  refine ⟨rfl, rfl, rfl⟩

/-- Claim C4, amended: for a Variant holding none of the three known QoS
types, the extraction classifiers return the default -1 (and
isOnChangeSubscription returns false); only SubscriptionUtil::getVariant
raises the runtime error, whose message mentions
"reference to unknown SubscriptionQos". -/
theorem subscriptionUtil_unknown_amended :
    SubscriptionUtil.getMinInterval .unknown = -1 ∧
    SubscriptionUtil.getAlertInterval .unknown = -1 ∧
    SubscriptionUtil.getPeriodicPublicationInterval .unknown = -1 ∧
    SubscriptionUtil.isOnChangeSubscription .unknown = false ∧
    SubscriptionUtil.getVariant .unknown =
      .error ("Exception in SubscriptionUtil: " ++
        "reference to unknown SubscriptionQos" ++ " has been sent") := by
  refine ⟨rfl, rfl, rfl, rfl, rfl⟩

/-- The in-process annotation never changes the participant id. -/
theorem checkForLocal_participantId (agg : LocalDiscoveryAggregator) (e : StdDiscoveryEntry) :
    (agg.checkForLocalAvailabilityAndAddInProcessConnection e).participantId = e.participantId := by
  unfold LocalDiscoveryAggregator.checkForLocalAvailabilityAndAddInProcessConnection
  split <;> rfl

/-- When the request-caller directory contains the participant id of an
annotated entry, the annotated entry's first connection is IN_PROCESS. -/
theorem checkForLocal_head (agg : LocalDiscoveryAggregator) (e : StdDiscoveryEntry)
    (h : agg.requestCallerDirectory
      (agg.checkForLocalAvailabilityAndAddInProcessConnection e).participantId = true) :
    (agg.checkForLocalAvailabilityAndAddInProcessConnection e).connections.head? =
      some CommunicationMiddleware.IN_PROCESS := by
  rw [checkForLocal_participantId] at h
  simp [LocalDiscoveryAggregator.checkForLocalAvailabilityAndAddInProcessConnection, h]

/-- Claim C5: every entry returned by an aggregator lookup whose
participant id is in the request-caller directory carries IN_PROCESS as
the first element of its connections — for the domain/interface lookup
run on an empty result vector, and for the participant-id lookup whenever
it answers with status OK. -/
theorem aggregator_lookup_inProcess_first :
    (∀ (agg : LocalDiscoveryAggregator) (st : RequestStatus) (domain interfaceName : String)
      (qos : StdDiscoveryQos) (e : StdDiscoveryEntry),
      e ∈ (agg.lookupByDomainAndInterface st [] domain interfaceName qos).result →
      agg.requestCallerDirectory e.participantId = true →
      e.connections.head? = some CommunicationMiddleware.IN_PROCESS) ∧
    (∀ (agg : LocalDiscoveryAggregator) (st : RequestStatus) (r0 : StdDiscoveryEntry)
      (p : String),
      (agg.lookupByParticipantId st r0 p).joynrInternalStatus.code = RequestStatusCode.OK →
      agg.requestCallerDirectory (agg.lookupByParticipantId st r0 p).result.participantId =
        true →
      (agg.lookupByParticipantId st r0 p).result.connections.head? =
        some CommunicationMiddleware.IN_PROCESS) := by
  constructor
  · intro agg st domain interfaceName qos e hmem hdir
    cases hproxy : agg.discoveryProxy with
    | none =>
        simp [LocalDiscoveryAggregator.lookupByDomainAndInterface, hproxy] at hmem
    | some proxy =>
        simp [LocalDiscoveryAggregator.lookupByDomainAndInterface, hproxy,
          List.mem_map] at hmem
        obtain ⟨e', _, rfl⟩ := hmem
        exact checkForLocal_head agg e' hdir
  · intro agg st r0 p hok hdir
    cases hprov : agg.provisionedDiscoveryEntries.lookup p with
    | some e =>
        simp [LocalDiscoveryAggregator.lookupByParticipantId, hprov] at hdir ⊢
        exact checkForLocal_head agg e hdir
    | none =>
        cases hproxy : agg.discoveryProxy with
        | none =>
            simp [LocalDiscoveryAggregator.lookupByParticipantId, hprov, hproxy,
              RequestStatus.setCode, RequestStatus.addDescription] at hok
        | some proxy =>
            simp [LocalDiscoveryAggregator.lookupByParticipantId, hprov, hproxy] at hdir ⊢
            exact checkForLocal_head agg _ hdir

/-- Claim C5, witness: the sample aggregator returns the annotated sample
entry whose participant has a local request caller, and its first
connection is IN_PROCESS. -/
theorem aggregator_lookup_inProcess_first_witness :
    remoteEntryAWithInProcess ∈
      (aggregatorWithProxyA.lookupByDomainAndInterface initialRequestStatus [] "domainA"
        "interfaceA" sampleDiscoveryQos).result ∧
    aggregatorWithProxyA.requestCallerDirectory remoteEntryAWithInProcess.participantId =
      true ∧
    remoteEntryAWithInProcess.connections.head? = some CommunicationMiddleware.IN_PROCESS :=
  ⟨by decide, by decide,
    aggregator_lookup_inProcess_first.1 aggregatorWithProxyA initialRequestStatus "domainA"
      "interfaceA" sampleDiscoveryQos remoteEntryAWithInProcess (by decide) (by decide)⟩

/-- The participant-id lookup on a provisioned id, as one record: status
OK, the annotated provisioned entry, no remote call, state unchanged. -/
theorem lookupByParticipantId_provisioned (agg : LocalDiscoveryAggregator)
    (st : RequestStatus) (r0 : StdDiscoveryEntry) (p : String) (e : StdDiscoveryEntry)
    (h : agg.provisionedDiscoveryEntries.lookup p = some e) :
    agg.lookupByParticipantId st r0 p =
      { aggregatorAfter := agg
        joynrInternalStatus := st.setCode RequestStatusCode.OK
        result := agg.checkForLocalAvailabilityAndAddInProcessConnection e
        remoteCalls := [] } := by
  simp [LocalDiscoveryAggregator.lookupByParticipantId, h]

/-- The participant-id lookup on an id that is not provisioned while no
proxy is installed, as one record: status ERROR with the description
appended, result untouched, no remote call, state unchanged. -/
theorem lookupByParticipantId_noProxy (agg : LocalDiscoveryAggregator)
    (st : RequestStatus) (r0 : StdDiscoveryEntry) (p : String)
    (hprov : agg.provisionedDiscoveryEntries.lookup p = none)
    (hproxy : agg.discoveryProxy = none) :
    agg.lookupByParticipantId st r0 p =
      { aggregatorAfter := agg
        joynrInternalStatus :=
          (st.setCode RequestStatusCode.ERROR).addDescription discoveryProxyNotSetDescription
        result := r0
        remoteCalls := [] } := by
  simp [LocalDiscoveryAggregator.lookupByParticipantId, hprov, hproxy]

/-- Claim C6, counterexample: participantB is provisioned and has a local
request caller, so the participant-id lookup returns the provisioned
entry with IN_PROCESS added in front of its connections — a value
different from the provisioned entry itself, against the claim that the
lookup returns the provisioned entry. -/
theorem aggregator_provisioned_lookup_counterexample :
    aggregatorProvisionedB.provisionedDiscoveryEntries.lookup "participantB" =
      some provisionedEntryB ∧
    (aggregatorProvisionedB.lookupByParticipantId initialRequestStatus
      defaultStdDiscoveryEntry "participantB").remoteCalls = [] ∧
    (aggregatorProvisionedB.lookupByParticipantId initialRequestStatus
      defaultStdDiscoveryEntry "participantB").joynrInternalStatus.code =
      RequestStatusCode.OK ∧
    (aggregatorProvisionedB.lookupByParticipantId initialRequestStatus
      defaultStdDiscoveryEntry "participantB").result ≠ provisionedEntryB := by
  refine ⟨by decide, by decide, by decide, by decide⟩

/-- Claim C6, amended: for a provisioned participant id the lookup sets
status OK and returns the provisioned entry with the in-process
annotation applied (the provisioned entry itself whenever the
request-caller directory does not contain its participant id), without
invoking the remote proxy; for an id that is not provisioned, with a
proxy installed, the lookup is forwarded to the remote proxy. -/
theorem aggregator_provisioned_lookup_amended :
    (∀ (agg : LocalDiscoveryAggregator) (st : RequestStatus) (r0 : StdDiscoveryEntry)
      (p : String) (e : StdDiscoveryEntry),
      agg.provisionedDiscoveryEntries.lookup p = some e →
      (agg.lookupByParticipantId st r0 p).joynrInternalStatus.code = RequestStatusCode.OK ∧
      (agg.lookupByParticipantId st r0 p).remoteCalls = [] ∧
      (agg.lookupByParticipantId st r0 p).result =
        agg.checkForLocalAvailabilityAndAddInProcessConnection e ∧
      (agg.requestCallerDirectory e.participantId = false →
        (agg.lookupByParticipantId st r0 p).result = e)) ∧
    (∀ (agg : LocalDiscoveryAggregator) (st : RequestStatus) (r0 : StdDiscoveryEntry)
      (p : String) (proxy : IDiscoverySync),
      agg.provisionedDiscoveryEntries.lookup p = none →
      agg.discoveryProxy = some proxy →
      (agg.lookupByParticipantId st r0 p).remoteCalls =
        [RemoteCall.lookupByParticipantId p]) := by
  constructor
  · intro agg st r0 p e h
    rw [lookupByParticipantId_provisioned agg st r0 p e h]
    refine ⟨rfl, rfl, rfl, ?_⟩
    intro hdir
    simp [LocalDiscoveryAggregator.checkForLocalAvailabilityAndAddInProcessConnection, hdir]
  · intro agg st r0 p proxy hprov hproxy
    simp [LocalDiscoveryAggregator.lookupByParticipantId, hprov, hproxy]

/-- Claim C6, witness: participantC is provisioned with no local request
caller, so the lookup answers it locally with status OK and the
provisioned entry itself; an unprovisioned id is forwarded to the
installed proxy. -/
theorem aggregator_provisioned_lookup_amended_witness :
    aggregatorProvisionedC.provisionedDiscoveryEntries.lookup "participantC" =
      some provisionedEntryC ∧
    aggregatorProvisionedC.provisionedDiscoveryEntries.lookup "unknownParticipant" = none ∧
    aggregatorProvisionedC.requestCallerDirectory provisionedEntryC.participantId = false ∧
    ((aggregatorProvisionedC.lookupByParticipantId initialRequestStatus
        defaultStdDiscoveryEntry "participantC").joynrInternalStatus.code =
        RequestStatusCode.OK ∧
      (aggregatorProvisionedC.lookupByParticipantId initialRequestStatus
        defaultStdDiscoveryEntry "participantC").remoteCalls = [] ∧
      (aggregatorProvisionedC.lookupByParticipantId initialRequestStatus
        defaultStdDiscoveryEntry "participantC").result =
        aggregatorProvisionedC.checkForLocalAvailabilityAndAddInProcessConnection
          provisionedEntryC ∧
      (aggregatorProvisionedC.requestCallerDirectory provisionedEntryC.participantId =
          false →
        (aggregatorProvisionedC.lookupByParticipantId initialRequestStatus
          defaultStdDiscoveryEntry "participantC").result = provisionedEntryC)) ∧
    (aggregatorProvisionedC.lookupByParticipantId initialRequestStatus
      defaultStdDiscoveryEntry "unknownParticipant").remoteCalls =
      [RemoteCall.lookupByParticipantId "unknownParticipant"] :=
  ⟨by decide, by decide, by decide,
    aggregator_provisioned_lookup_amended.1 aggregatorProvisionedC initialRequestStatus
      defaultStdDiscoveryEntry "participantC" provisionedEntryC (by decide),
    aggregator_provisioned_lookup_amended.2 aggregatorProvisionedC initialRequestStatus
      defaultStdDiscoveryEntry "unknownParticipant" remoteProxyA (by decide) rfl⟩

/-- Claim C7, counterexample: with no proxy installed, the description the
aggregator's add operation records is not the string the claim quotes
(the source writes a class-name marker in front and spells capabilitites
with an extra syllable); the recorded description is
discoveryProxyNotSetDescription. -/
theorem aggregator_noProxy_description_counterexample :
    "discoveryProxy not set. Couldn't reach local capabilities directory." ∉
      (aggregatorWithoutProxy.add initialRequestStatus
        remoteEntryA).joynrInternalStatus.descriptions ∧
    (aggregatorWithoutProxy.add initialRequestStatus
      remoteEntryA).joynrInternalStatus.descriptions = [discoveryProxyNotSetDescription] := by
  refine ⟨by decide, by decide⟩

/-- Claim C7, amended: every add, domain/interface lookup or remove on an
aggregator with no proxy installed sets the status code to ERROR,
appends the description "LocalDiscoveryAggregator: discoveryProxy not
set. Couldn't reach local capabilitites directory.", performs no remote
call, leaves the aggregator state unchanged and, for the lookup, leaves
the result untouched. -/
theorem aggregator_noProxy_error_amended (agg : LocalDiscoveryAggregator)
    (st : RequestStatus) (e : StdDiscoveryEntry) (rs : List StdDiscoveryEntry)
    (domain interfaceName : String) (qos : StdDiscoveryQos) (pid : String)
    (h : agg.discoveryProxy = none) :
    agg.add st e =
      { aggregatorAfter := agg
        joynrInternalStatus :=
          (st.setCode RequestStatusCode.ERROR).addDescription discoveryProxyNotSetDescription
        remoteCalls := [] } ∧
    agg.lookupByDomainAndInterface st rs domain interfaceName qos =
      { aggregatorAfter := agg
        joynrInternalStatus :=
          (st.setCode RequestStatusCode.ERROR).addDescription discoveryProxyNotSetDescription
        result := rs
        remoteCalls := [] } ∧
    agg.remove st pid =
      { aggregatorAfter := agg
        joynrInternalStatus :=
          (st.setCode RequestStatusCode.ERROR).addDescription discoveryProxyNotSetDescription
        remoteCalls := [] } := by
  refine ⟨?_, ?_, ?_⟩
  · simp [LocalDiscoveryAggregator.add, h]
  · simp [LocalDiscoveryAggregator.lookupByDomainAndInterface, h]
  · simp [LocalDiscoveryAggregator.remove, h]

/-- Claim C7, witness: the amended statement at the sample aggregator
without a proxy, on concrete inputs. -/
theorem aggregator_noProxy_error_amended_witness :
    aggregatorWithoutProxy.discoveryProxy = none ∧
    (aggregatorWithoutProxy.add initialRequestStatus remoteEntryA =
      { aggregatorAfter := aggregatorWithoutProxy
        joynrInternalStatus :=
          (initialRequestStatus.setCode RequestStatusCode.ERROR).addDescription
            discoveryProxyNotSetDescription
        remoteCalls := [] } ∧
    aggregatorWithoutProxy.lookupByDomainAndInterface initialRequestStatus [] "domainA"
        "interfaceA" sampleDiscoveryQos =
      { aggregatorAfter := aggregatorWithoutProxy
        joynrInternalStatus :=
          (initialRequestStatus.setCode RequestStatusCode.ERROR).addDescription
            discoveryProxyNotSetDescription
        result := []
        remoteCalls := [] } ∧
    aggregatorWithoutProxy.remove initialRequestStatus "participantA" =
      { aggregatorAfter := aggregatorWithoutProxy
        joynrInternalStatus :=
          (initialRequestStatus.setCode RequestStatusCode.ERROR).addDescription
            discoveryProxyNotSetDescription
        remoteCalls := [] }) :=
  ⟨rfl,
    aggregator_noProxy_error_amended aggregatorWithoutProxy initialRequestStatus remoteEntryA
      [] "domainA" "interfaceA" sampleDiscoveryQos "participantA" rfl⟩

/-- Claim C10, counterexample: on a freshly constructed aggregator (no
proxy ever installed) whose request-caller directory contains the
provisioned routing participant, the lookup succeeds but returns the
annotated entry, a value different from the provisioned entry itself —
against the claim's wording that the provisioned entry is returned. -/
theorem aggregator_construct_lookup_counterexample :
    freshAggregatorLocalCallers.discoveryProxy = none ∧
    freshAggregatorLocalCallers.provisionedDiscoveryEntries.lookup "ccRoutingParticipant" =
      some routingProviderEntry ∧
    (freshAggregatorLocalCallers.lookupByParticipantId initialRequestStatus
      defaultStdDiscoveryEntry "ccRoutingParticipant").joynrInternalStatus.code =
      RequestStatusCode.OK ∧
    (freshAggregatorLocalCallers.lookupByParticipantId initialRequestStatus
      defaultStdDiscoveryEntry "ccRoutingParticipant").result ≠ routingProviderEntry := by
  refine ⟨rfl, by decide, by decide, by decide⟩

/-- Claim C10, amended: on a freshly constructed aggregator the discovery
proxy is NULL, yet looking up a provisioned participant id succeeds with
status OK and no remote call, returning the provisioned entry with the
in-process annotation applied (the provisioned entry itself whenever the
request-caller directory does not contain its participant id); the
missing-proxy error branch is taken only for ids that are not
provisioned. -/
theorem aggregator_construct_provisioned_lookup_amended :
    (∀ (dir : String → Bool) (rE dE : StdDiscoveryEntry),
      (LocalDiscoveryAggregator.construct dir rE dE).discoveryProxy = none) ∧
    (∀ (dir : String → Bool) (rE dE : StdDiscoveryEntry) (st : RequestStatus)
      (r0 : StdDiscoveryEntry) (p : String) (e : StdDiscoveryEntry),
      (LocalDiscoveryAggregator.construct dir rE
        dE).provisionedDiscoveryEntries.lookup p = some e →
      ((LocalDiscoveryAggregator.construct dir rE dE).lookupByParticipantId st r0
        p).joynrInternalStatus.code = RequestStatusCode.OK ∧
      ((LocalDiscoveryAggregator.construct dir rE dE).lookupByParticipantId st r0
        p).remoteCalls = [] ∧
      ((LocalDiscoveryAggregator.construct dir rE dE).lookupByParticipantId st r0
        p).result =
        (LocalDiscoveryAggregator.construct dir rE
          dE).checkForLocalAvailabilityAndAddInProcessConnection e ∧
      (dir e.participantId = false →
        ((LocalDiscoveryAggregator.construct dir rE dE).lookupByParticipantId st r0
          p).result = e)) ∧
    (∀ (dir : String → Bool) (rE dE : StdDiscoveryEntry) (st : RequestStatus)
      (r0 : StdDiscoveryEntry) (p : String),
      (LocalDiscoveryAggregator.construct dir rE
        dE).provisionedDiscoveryEntries.lookup p = none →
      ((LocalDiscoveryAggregator.construct dir rE dE).lookupByParticipantId st r0
        p).joynrInternalStatus.code = RequestStatusCode.ERROR ∧
      ((LocalDiscoveryAggregator.construct dir rE dE).lookupByParticipantId st r0
        p).joynrInternalStatus.descriptions =
        st.descriptions ++ [discoveryProxyNotSetDescription] ∧
      ((LocalDiscoveryAggregator.construct dir rE dE).lookupByParticipantId st r0
        p).remoteCalls = []) := by
  refine ⟨fun dir rE dE => rfl, ?_, ?_⟩
  · intro dir rE dE st r0 p e h
    rw [lookupByParticipantId_provisioned _ st r0 p e h]
    refine ⟨rfl, rfl, rfl, ?_⟩
    intro hdir
    simp [LocalDiscoveryAggregator.checkForLocalAvailabilityAndAddInProcessConnection,
      LocalDiscoveryAggregator.construct, hdir]
  · intro dir rE dE st r0 p h
    rw [lookupByParticipantId_noProxy _ st r0 p h rfl]
    exact ⟨rfl, rfl, rfl⟩

/-- Claim C10, witness: the amended statement on the freshly constructed
sample aggregator with an empty request-caller directory, at the
provisioned routing participant and at an unprovisioned id. -/
theorem aggregator_construct_provisioned_lookup_amended_witness :
    freshAggregatorNoLocalCallers.provisionedDiscoveryEntries.lookup
      "ccRoutingParticipant" = some routingProviderEntry ∧
    freshAggregatorNoLocalCallers.provisionedDiscoveryEntries.lookup
      "somebodyElse" = none ∧
    ((freshAggregatorNoLocalCallers.lookupByParticipantId initialRequestStatus
        defaultStdDiscoveryEntry "ccRoutingParticipant").joynrInternalStatus.code =
        RequestStatusCode.OK ∧
      (freshAggregatorNoLocalCallers.lookupByParticipantId initialRequestStatus
        defaultStdDiscoveryEntry "ccRoutingParticipant").remoteCalls = [] ∧
      (freshAggregatorNoLocalCallers.lookupByParticipantId initialRequestStatus
        defaultStdDiscoveryEntry "ccRoutingParticipant").result =
        freshAggregatorNoLocalCallers.checkForLocalAvailabilityAndAddInProcessConnection
          routingProviderEntry ∧
      ((fun (_ : String) => false) routingProviderEntry.participantId = false →
        (freshAggregatorNoLocalCallers.lookupByParticipantId initialRequestStatus
          defaultStdDiscoveryEntry "ccRoutingParticipant").result =
          routingProviderEntry)) ∧
    ((freshAggregatorNoLocalCallers.lookupByParticipantId initialRequestStatus
        defaultStdDiscoveryEntry "somebodyElse").joynrInternalStatus.code =
        RequestStatusCode.ERROR ∧
      (freshAggregatorNoLocalCallers.lookupByParticipantId initialRequestStatus
        defaultStdDiscoveryEntry "somebodyElse").joynrInternalStatus.descriptions =
        initialRequestStatus.descriptions ++ [discoveryProxyNotSetDescription] ∧
      (freshAggregatorNoLocalCallers.lookupByParticipantId initialRequestStatus
        defaultStdDiscoveryEntry "somebodyElse").remoteCalls = []) :=
  ⟨by decide, by decide,
    aggregator_construct_provisioned_lookup_amended.2.1 (fun _ => false)
      routingProviderEntry discoveryProviderEntry initialRequestStatus
      defaultStdDiscoveryEntry "ccRoutingParticipant" routingProviderEntry (by decide),
    aggregator_construct_provisioned_lookup_amended.2.2 (fun _ => false)
      routingProviderEntry discoveryProviderEntry initialRequestStatus
      defaultStdDiscoveryEntry "somebodyElse" (by decide)⟩

/-- Filtering every pair with the given key out of an association list
makes the lookup of that key fail. -/
theorem lookup_filter_key_out (m : String) (l : List (String × List String)) :
    (l.filter fun p => p.1 ≠ m).lookup m = none := by
  induction l with
  | nil => rfl
  | cons hd tl ih =>
      obtain ⟨k, v⟩ := hd
      rw [List.filter_cons]
      by_cases h : k = m
      · rw [if_neg (by simp [h])]
        exact ih
      · rw [if_pos (by simp [h]), List.lookup_cons,
          show (m == k) = false from beq_eq_false_iff_ne.mpr (Ne.symm h)]
        exact ih

/-- Replacing the value of every pair with the given key in an
association list is what the lookup of that key then returns, when the
key was present. -/
theorem lookup_map_replace_value (m : String) (s' : List String)
    (l : List (String × List String)) :
    ((l.map fun p => if p.1 = m then (p.1, s') else p).lookup m) =
      (l.lookup m).map fun _ => s' := by
  induction l with
  | nil => rfl
  | cons hd tl ih =>
      obtain ⟨k, v⟩ := hd
      rw [List.map_cons]
      dsimp only
      by_cases h : k = m
      · rw [if_pos h, List.lookup_cons, List.lookup_cons,
          show (m == k) = true from beq_iff_eq.mpr h.symm]
        rfl
      · rw [if_neg h, List.lookup_cons, List.lookup_cons,
          show (m == k) = false from beq_eq_false_iff_ne.mpr (Ne.symm h)]
        exact ih

/-- After one unregister of a receiver from a multicast id, that receiver
is not among the receivers of that id, whatever the starting state. -/
theorem unregister_not_mem (dir : MulticastReceiverDirectory) (m r : String) :
    r ∉ ((dir.unregisterMulticastReceiver m r).1.getReceivers m) := by
  unfold MulticastReceiverDirectory.unregisterMulticastReceiver
  cases hl : dir.multicastReceivers.lookup m with
  | none =>
      simp [MulticastReceiverDirectory.getReceivers, hl]
  | some s =>
      dsimp only
      by_cases hrem : s.filter (fun x => x ≠ r) = []
      · rw [if_pos hrem]
        simp only [MulticastReceiverDirectory.getReceivers, lookup_filter_key_out,
          Option.getD_none]
        exact List.not_mem_nil r
      · rw [if_neg hrem]
        simp only [MulticastReceiverDirectory.getReceivers, lookup_map_replace_value, hl,
          Option.map_some', Option.getD_some]
        intro hmem
        have h2 := (List.mem_filter.mp hmem).2
        simp at h2

/-- Claim C9: after any number of registerMulticastReceiver(m, r) calls
followed by one unregisterMulticastReceiver(m, r) call, r is not a member
of getReceivers(m): registration has set semantics, not counted
semantics. -/
theorem multicastReceiverDirectory_unregister_removes
    (dir : MulticastReceiverDirectory) (n : Nat) (m r : String) :
    r ∉ ((((fun d => d.registerMulticastReceiver m r)^[n]
      dir).unregisterMulticastReceiver m r).1.getReceivers m) :=
  unregister_not_mem _ m r

/-- Claim C1: when the runtime weak pointer cannot be upgraded, buildAsync
does invoke onError — but with the message "required runtime has been
already destroyed", not "runtime already destroyed" — and then, instead of
returning, continues: it constructs an arbitrator, starts the arbitration
and appends the arbitrator to the builder's list. -/
theorem proxyBuilder_deadRuntime_still_arbitrates :
    ProxyBuilder.buildAsync false initialProxyBuilderState =
      ([BuildAsyncEvent.callerOnError ProxyBuilder.runtimeAlreadyDestroyed,
        BuildAsyncEvent.createArbitrator 0, BuildAsyncEvent.startArbitration 0],
       { shuttingDown := false, arbitrators := [0], nextArbitratorId := 1 }) ∧
    ProxyBuilder.runtimeAlreadyDestroyed = "required runtime has been already destroyed" ∧
    ProxyBuilder.runtimeAlreadyDestroyed ≠ "runtime already destroyed" := by
  refine ⟨by decide, by decide, by decide⟩

/-- Claim C2: a buildAsync invoked after stop() still starts an
arbitration (the shuttingDown branch invokes onError but does not
return), and when that arbitration succeeds with a live runtime, a live
builder and a non-empty participant id, the callback reaches
proxyFactory.createProxy. -/
theorem proxyBuilder_afterStop_reaches_createProxy :
    (ProxyBuilder.buildAsync true (ProxyBuilder.stop initialProxyBuilderState)).1 =
      [BuildAsyncEvent.callerOnError ProxyBuilder.runtimeAlreadyDestroyed,
       BuildAsyncEvent.createArbitrator 0, BuildAsyncEvent.startArbitration 0] ∧
    (ProxyBuilder.buildAsync true
      (ProxyBuilder.stop initialProxyBuilderState)).2.arbitrators = [0] ∧
    CallbackEvent.createProxy ∈
      ProxyBuilder.arbitrationSucceeds true true sampleArbitratedEntry
        RouterOutcome.success := by
  refine ⟨by decide, by decide, by decide⟩

/-- Claim C8, counterexample: on an addNextHop failure the caller's
onError does not receive the router's message behind the claimed
lower-case text "proxy could not be added to parent router: "; the text
the source uses starts with a capital P. -/
theorem proxyBuilder_router_error_message_counterexample :
    CallbackEvent.onErrorDiscovery
        ("proxy could not be added to parent router: " ++ "router error") ∉
      ProxyBuilder.arbitrationSucceeds true true sampleArbitratedEntry
        (RouterOutcome.failure "router error") ∧
    CallbackEvent.onErrorDiscovery
        ("Proxy could not be added to parent router: " ++ "router error") ∈
      ProxyBuilder.arbitrationSucceeds true true sampleArbitratedEntry
        (RouterOutcome.failure "router error") := by
  refine ⟨by decide, by decide⟩

/-- Claim C8, amended: within a successful arbitration with a non-empty
participant id, a live builder and a live runtime, an addNextHop failure
makes onError receive a DiscoveryException whose message is the router's
error message behind "Proxy could not be added to parent router: " (with
a capital P), onSuccess is then never invoked, and on an addNextHop
success onSuccess with the created proxy is the final step after
setToKnown and addNextHop. -/
theorem proxyBuilder_addNextHop_callbacks (e : DiscoveryEntryWithMetaInfo) (m : String)
    (h : e.participantId ≠ "") :
    ProxyBuilder.arbitrationSucceeds true true e (RouterOutcome.failure m) =
      [CallbackEvent.createProxy, CallbackEvent.handleArbitrationFinished e,
       CallbackEvent.setToKnown e.participantId,
       CallbackEvent.addNextHop (!e.isLocal) ProxyBuilder.addNextHopExpiryDateMs false,
       CallbackEvent.onErrorDiscovery
         ("Proxy could not be added to parent router: " ++ m)] ∧
    ProxyBuilder.arbitrationSucceeds true true e RouterOutcome.success =
      [CallbackEvent.createProxy, CallbackEvent.handleArbitrationFinished e,
       CallbackEvent.setToKnown e.participantId,
       CallbackEvent.addNextHop (!e.isLocal) ProxyBuilder.addNextHopExpiryDateMs false,
       CallbackEvent.onSuccessProxy] ∧
    CallbackEvent.onSuccessProxy ∉
      ProxyBuilder.arbitrationSucceeds true true e (RouterOutcome.failure m) := by
  refine ⟨?_, ?_, ?_⟩ <;> simp [ProxyBuilder.arbitrationSucceeds, h]

/-- Claim C8, witness: the amended statement at the sample arbitrated
entry and a concrete router error message. -/
theorem proxyBuilder_addNextHop_callbacks_witness :
    sampleArbitratedEntry.participantId ≠ "" ∧
    (ProxyBuilder.arbitrationSucceeds true true sampleArbitratedEntry
        (RouterOutcome.failure "router error") =
      [CallbackEvent.createProxy,
       CallbackEvent.handleArbitrationFinished sampleArbitratedEntry,
       CallbackEvent.setToKnown sampleArbitratedEntry.participantId,
       CallbackEvent.addNextHop (!sampleArbitratedEntry.isLocal)
         ProxyBuilder.addNextHopExpiryDateMs false,
       CallbackEvent.onErrorDiscovery
         ("Proxy could not be added to parent router: " ++ "router error")] ∧
    ProxyBuilder.arbitrationSucceeds true true sampleArbitratedEntry
        RouterOutcome.success =
      [CallbackEvent.createProxy,
       CallbackEvent.handleArbitrationFinished sampleArbitratedEntry,
       CallbackEvent.setToKnown sampleArbitratedEntry.participantId,
       CallbackEvent.addNextHop (!sampleArbitratedEntry.isLocal)
         ProxyBuilder.addNextHopExpiryDateMs false,
       CallbackEvent.onSuccessProxy] ∧
    CallbackEvent.onSuccessProxy ∉
      ProxyBuilder.arbitrationSucceeds true true sampleArbitratedEntry
        (RouterOutcome.failure "router error")) :=
  ⟨by decide,
    proxyBuilder_addNextHop_callbacks sampleArbitratedEntry "router error" (by decide)⟩

end Joynr
